import Mathlib

/-!
Verification development for the FloorPlan extraction pipeline
(`scripts/cad_processor.py` and `scripts/image_processor.py`).

The Python code is shallowly embedded: coordinates are modelled as exact
rationals (the code uses binary floats; none of the properties below hinge
on rounding), Python `dict`s as insertion-ordered association lists, and
the Python `set` of layer names as an insertion-ordered duplicate-free
list of its elements (Python guarantees only the *contents* of a set, not
an iteration order; where an ordering of the set is observable we
quantify over all enumerations of the set).  External libraries (ezdxf,
OpenCV, pdf2image) are collaborators: their outputs (parsed documents,
detected contours and line segments) are inputs of the embedded
functions, and only the repository's own logic is embedded.
-/

/-- Extended rationals mirroring IEEE special values of Python floats:
`float('inf')`, `float('-inf')` and `nan` as used in `_calculate_bounds`. -/
inductive ERat where
  | nan : ERat
  | ninf : ERat
  | fin : ℚ → ERat
  | pinf : ERat
deriving DecidableEq, Repr

/-- Python `min` on extended values (second argument wins ties; `nan`
behaviour mirrors `min`'s comparison chain, it is never reached on the
paths the code takes). -/
def emin : ERat → ERat → ERat
  | .nan, _ => .nan
  | .ninf, _ => .ninf
  | .pinf, y => y
  | .fin a, .nan => .fin a
  | .fin _, .ninf => .ninf
  | .fin a, .pinf => .fin a
  | .fin a, .fin b => .fin (min a b)

/-- Python `max` on extended values. -/
def emax : ERat → ERat → ERat
  | .nan, _ => .nan
  | .pinf, _ => .pinf
  | .ninf, y => y
  | .fin a, .nan => .fin a
  | .fin _, .pinf => .pinf
  | .fin a, .ninf => .fin a
  | .fin a, .fin b => .fin (max a b)

/-- IEEE subtraction on extended values. -/
def esub : ERat → ERat → ERat
  | .nan, _ => .nan
  | _, .nan => .nan
  | .pinf, .pinf => .nan
  | .ninf, .ninf => .nan
  | .pinf, _ => .pinf
  | .ninf, _ => .ninf
  | .fin _, .pinf => .ninf
  | .fin _, .ninf => .pinf
  | .fin a, .fin b => .fin (a - b)

/-- IEEE addition on extended values. -/
def eadd : ERat → ERat → ERat
  | .nan, _ => .nan
  | _, .nan => .nan
  | .pinf, .ninf => .nan
  | .ninf, .pinf => .nan
  | .pinf, _ => .pinf
  | .ninf, _ => .ninf
  | .fin _, .pinf => .pinf
  | .fin _, .ninf => .ninf
  | .fin a, .fin b => .fin (a + b)

/-- Multiplication of an extended value by a rational constant. -/
def escale (c : ℚ) : ERat → ERat
  | .nan => .nan
  | .fin a => .fin (c * a)
  | .pinf => if 0 < c then .pinf else if c < 0 then .ninf else .nan
  | .ninf => if 0 < c then .ninf else if c < 0 then .pinf else .nan

/-- IEEE `≤` as a boolean (false whenever `nan` is involved). -/
def eleb : ERat → ERat → Bool
  | .nan, _ => false
  | _, .nan => false
  | .ninf, _ => true
  | _, .pinf => true
  | .pinf, _ => false
  | .fin _, .ninf => false
  | .fin a, .fin b => decide (a ≤ b)

/-- A 2-D point. -/
structure Point where
  x : ℚ
  y : ℚ
deriving DecidableEq, Repr

/-- One kind-specific property value stored in an entity's `properties`
dict.  `sqrtNum q` records the value `math.sqrt q` that the PDF pathway
stores as a line's `length` (kept symbolic since `√` is irrational). -/
inductive PropVal where
  | num : ℚ → PropVal
  | str : String → PropVal
  | boolV : Bool → PropVal
  | sqrtNum : ℚ → PropVal
deriving DecidableEq, Repr

/-- The `entity_data` record built by `_process_entity` (and by the PDF,
DWG-fallback and raster pathways; those dicts omit the `is_block` key,
modelled here as `is_block = false`).  `properties` is an
insertion-ordered association list, mirroring the Python dict. -/
structure Entity where
  type : String
  layer : String
  coordinates : List Point
  properties : List (String × PropVal)
  is_block : Bool
deriving DecidableEq, Repr

/-- The bounds dict `{'minX', 'minY', 'maxX', 'maxY'}`. -/
structure Bounds where
  minX : ERat
  minY : ERat
  maxX : ERat
  maxY : ERat
deriving DecidableEq, Repr

/-- The result dict built by `_build_result`. -/
structure Result where
  entities : List Entity
  bounds : Bounds
  scale : ℚ
  units : String
  layers : List String
  blocks : List (String × List Entity)
  entity_count : Nat
  layer_count : Nat
deriving DecidableEq, Repr

/-- Mutable state of a `CADProcessor` instance:
`self.entities`, `self.layers`, `self.bounds`, `self.scale`,
`self.units`, `self.blocks`. -/
structure CADState where
  entities : List Entity
  layers : List String
  bounds : Bounds
  scale : ℚ
  units : String
  blocks : List (String × List Entity)
deriving DecidableEq, Repr

/-- `CADProcessor.__init__`. -/
def initState : CADState :=
  { entities := []
    layers := []
    bounds := { minX := .fin 0, minY := .fin 0, maxX := .fin 100, maxY := .fin 100 }
    scale := 1
    units := "m"
    blocks := [] }

/-- `self.layers.add x` — the set's contents as a duplicate-free list. -/
def insertLayer (l : List String) (s : String) : List String :=
  if s ∈ l then l else l ++ [s]

/-- `self.blocks[k].append v` after the `if k not in self.blocks` guard of
`_process_entity`: append to the existing key's list, else create the key
(Python dicts are insertion-ordered). -/
def dictAppend (d : List (String × List Entity)) (k : String) (v : Entity) :
    List (String × List Entity) :=
  if d.any (fun p => decide (p.1 = k)) then
    d.map (fun p => if p.1 = k then (p.1, p.2 ++ [v]) else p)
  else d ++ [(k, [v])]

/-- `self.blocks[k] = v` (dict assignment). -/
def dictSet (d : List (String × List Entity)) (k : String) (v : List Entity) :
    List (String × List Entity) :=
  if d.any (fun p => decide (p.1 = k)) then
    d.map (fun p => if p.1 = k then (p.1, v) else p)
  else d ++ [(k, v)]

/-- A parsed DXF drawing object as `_process_entity` reads it: the type
tag `entity.dxftype()`, the layer `entity.dxf.layer`, and the
type-specific geometry fields.  `other` covers every unsupported type
tag (ELLIPSE, SPLINE, HATCH, DIMENSION, ...), for which the code reads
no geometry. -/
inductive DxfEntity where
  | line (layer : String) (s e : Point)
  | lwpolyline (layer : String) (points : List Point) (closed : Bool)
  | polyline (layer : String) (points : List Point) (closed : Bool)
  | circle (layer : String) (center : Point) (radius : ℚ)
  | arc (layer : String) (center : Point) (radius startAngle endAngle : ℚ)
  | insert (layer : String) (pt : Point) (name : String) (rotation xscale yscale : ℚ)
  | text (layer : String) (mtext : Bool) (pt : Point) (content : String) (height rotation : ℚ)
  | other (tag : String) (layer : String)
deriving DecidableEq, Repr

/-- The layer field every branch of `_process_entity` reads. -/
def layerOf : DxfEntity → String
  | .line l _ _ => l
  | .lwpolyline l _ _ => l
  | .polyline l _ _ => l
  | .circle l _ _ => l
  | .arc l _ _ _ _ => l
  | .insert l _ _ _ _ _ => l
  | .text l _ _ _ _ _ => l
  | .other _ l => l

/-- The `entity_data` dict `_process_entity` builds for one drawing
object (coordinate/property extraction per type tag; an unsupported tag
leaves `coordinates` and `properties` empty but the record is still
built). -/
def entityOf (isBlock : Bool) : DxfEntity → Entity
  | .line l s e =>
      { type := "LINE", layer := l, coordinates := [s, e], properties := [],
        is_block := isBlock }
  | .lwpolyline l pts closed =>
      { type := "LWPOLYLINE", layer := l, coordinates := pts,
        properties := if closed then [("closed", .boolV true)] else [],
        is_block := isBlock }
  | .polyline l pts closed =>
      { type := "POLYLINE", layer := l, coordinates := pts,
        properties := if closed then [("closed", .boolV true)] else [],
        is_block := isBlock }
  | .circle l c r =>
      { type := "CIRCLE", layer := l, coordinates := [c],
        properties := [("radius", .num r)], is_block := isBlock }
  | .arc l c r sa ea =>
      { type := "ARC", layer := l, coordinates := [c],
        properties := [("radius", .num r), ("start_angle", .num sa), ("end_angle", .num ea)],
        is_block := isBlock }
  | .insert l p name rot xs ys =>
      { type := "INSERT", layer := l, coordinates := [p],
        properties := [("block_name", .str name), ("rotation", .num rot),
                       ("x_scale", .num xs), ("y_scale", .num ys)],
        is_block := isBlock }
  | .text l mt p content h rot =>
      { type := if mt then "MTEXT" else "TEXT", layer := l, coordinates := [p],
        properties := [("text", .str content), ("height", .num h), ("rotation", .num rot)],
        is_block := isBlock }
  | .other tag l =>
      { type := tag, layer := l, coordinates := [], properties := [],
        is_block := isBlock }

/-- `_process_entity(entity, is_block)`: add the layer to the set, then
append the record — to `self.blocks` keyed by the entity's *layer* when
`is_block`, else to `self.entities`. -/
def processEntityState (st : CADState) (isBlock : Bool) (e : DxfEntity) : CADState :=
  let ed := entityOf isBlock e
  let st' := { st with layers := insertLayer st.layers ed.layer }
  if isBlock then
    { st' with blocks := dictAppend st'.blocks ed.layer ed }
  else
    { st' with entities := st'.entities ++ [ed] }

/-- A parsed DXF document as `process_dxf` consumes it: the named block
containers in `doc.blocks` order, the model-space objects in traversal
order, and the `$INSUNITS` header variable (`none` when absent). -/
structure DxfDoc where
  blocks : List (String × List DxfEntity)
  modelSpace : List DxfEntity
  insunits : Option Nat
deriving DecidableEq, Repr

/-- `block_name.startswith('*')` — the anonymous-block check, phrased
over the string's character list (equivalent to a one-character prefix
test). -/
def isAnonymous (name : String) : Bool :=
  decide (name.data.head? = some '*')

/-- The block loop of `process_dxf`: skip names starting with `*`
(anonymous), else set `self.blocks[name] = []` and process each member
with `is_block=True`. -/
def processBlocks (st : CADState) (blocks : List (String × List DxfEntity)) : CADState :=
  blocks.foldl
    (fun st b =>
      if isAnonymous b.1 then st
      else
        b.2.foldl (fun st e => processEntityState st true e)
          { st with blocks := dictSet st.blocks b.1 [] })
    st

/-- The model-space loop of `process_dxf` / `process_dwg`. -/
def processModelSpace (st : CADState) (es : List DxfEntity) : CADState :=
  es.foldl (fun st e => processEntityState st false e) st

/-- The min/max accumulation of `_calculate_bounds`, starting from
`float('inf')` / `float('-inf')`: `(min_x, min_y, max_x, max_y)`. -/
def foldExtent (coords : List Point) : ERat × ERat × ERat × ERat :=
  coords.foldl
    (fun acc c =>
      (emin acc.1 (.fin c.x), emin acc.2.1 (.fin c.y),
       emax acc.2.2.1 (.fin c.x), emax acc.2.2.2 (.fin c.y)))
    (.pinf, .pinf, .ninf, .ninf)

/-- All coordinates of a list of entities, in traversal order. -/
def entityCoords (es : List Entity) : List Point :=
  (es.map Entity.coordinates).flatten

/-- The padded bounds `_calculate_bounds` computes from a min/max
extent: `padding = (max_x - min_x) * 0.1` (note: the x-span is used for
both axes). -/
def padBounds (minx miny maxx maxy : ERat) : Bounds :=
  let padding := escale (1 / 10) (esub maxx minx)
  { minX := esub minx padding
    minY := esub miny padding
    maxX := eadd maxx padding
    maxY := eadd maxy padding }

/-- `CADProcessor._calculate_bounds` (the identical function appears in
`ImageProcessor._calculate_bounds`): no-op when `self.entities` is
empty, else accumulate the min/max over all coordinates of the (top
level only) entity list and store the padded extent. -/
def calcBoundsOn (entities : List Entity) (current : Bounds) : Bounds :=
  if entities.isEmpty then current
  else
    let f := foldExtent (entityCoords entities)
    padBounds f.1 f.2.1 f.2.2.1 f.2.2.2

/-- `self._calculate_bounds()` on the CAD state. -/
def calculateBounds (st : CADState) : CADState :=
  { st with bounds := calcBoundsOn st.entities st.bounds }

/-- The `unit_map` dict of `_detect_units` with its `.get(insunits, 'm')`
default. -/
def unitMap (code : Nat) : String :=
  if code = 0 then "unitless"
  else if code = 1 then "in"
  else if code = 2 then "ft"
  else if code = 3 then "miles"
  else if code = 4 then "mm"
  else if code = 5 then "cm"
  else if code = 6 then "m"
  else if code = 7 then "km"
  else if code = 14 then "m"
  else "m"

/-- The scale assignment chain of `_detect_units` (`mm`, `cm`, `in`,
`ft` convert; everything else gets `1.0`). -/
def scaleOfUnit (u : String) : ℚ :=
  if u = "mm" then 1 / 1000
  else if u = "cm" then 1 / 100
  else if u = "in" then 254 / 10000
  else if u = "ft" then 3048 / 10000
  else 1

/-- `CADProcessor._detect_units`: read `$INSUNITS` (default 0), map it
through `unit_map`, set `self.scale` accordingly and standardize
`self.units` to `'m'` (the detected label is discarded). -/
def detectUnits (st : CADState) (insunits : Option Nat) : CADState :=
  let detected := unitMap (insunits.getD 0)
  { st with scale := scaleOfUnit detected, units := "m" }

/-- `CADProcessor._build_result`; the `layers` field is one enumeration
of the layer set (`list(self.layers)` — Python fixes the contents, not
the order; `buildResultWith` below quantifies over the order). -/
def buildResult (st : CADState) : Result :=
  { entities := st.entities
    bounds := st.bounds
    scale := st.scale
    units := st.units
    layers := st.layers
    blocks := st.blocks
    entity_count := st.entities.length
    layer_count := st.layers.length }

/-- `_build_result` with an explicit enumeration of the layer set, to
reason about the unspecified iteration order of `list(self.layers)`. -/
def buildResultWith (st : CADState) (layerList : List String) : Result :=
  { entities := st.entities
    bounds := st.bounds
    scale := st.scale
    units := st.units
    layers := layerList
    blocks := st.blocks
    entity_count := st.entities.length
    layer_count := st.layers.length }

/-- `l` is a possible value of `list(s)` for the set with contents `s`:
duplicate-free and with exactly the same members. -/
def validListing (s l : List String) : Prop :=
  l.Nodup ∧ (∀ x ∈ l, x ∈ s) ∧ (∀ x ∈ s, x ∈ l)

instance (s l : List String) : Decidable (validListing s l) := by
  unfold validListing; infer_instance

/-- The processor state `process_dxf` has built right before
`_build_result`. -/
def pipelineState (doc : DxfDoc) : CADState :=
  detectUnits
    (calculateBounds (processModelSpace (processBlocks initState doc.blocks) doc.modelSpace))
    doc.insunits

/-- `CADProcessor.process_dxf` on a successfully parsed document. -/
def processDxf (doc : DxfDoc) : Result :=
  buildResult (pipelineState doc)

/-- `process_dxf` with an explicit enumeration of the final layer set. -/
def processDxfWith (doc : DxfDoc) (layerList : List String) : Result :=
  buildResultWith (pipelineState doc) layerList

/-- `process_dxf` wrapped in its try/except: a reader failure is
re-raised as one terminal error and no Result is produced. -/
def processDxfFile : Except String DxfDoc → Except String Result
  | .error msg => .error ("Failed to process DXF file: " ++ msg)
  | .ok doc => .ok (processDxf doc)

/-- A synthetic `LINE` entity of `_create_basic_floor_plan` (those dicts
carry no `is_block` key). -/
def wallLine (x1 y1 x2 y2 : ℚ) : Entity :=
  { type := "LINE", layer := "WALLS",
    coordinates := [{ x := x1, y := y1 }, { x := x2, y := y2 }],
    properties := [], is_block := false }

/-- `CADProcessor._create_basic_floor_plan`: fabricate outer walls,
complexity-dependent interior walls, the `WALLS` layer and fixed bounds
`(0,0)-(1000,800)`. -/
def createBasicFloorPlan (st : CADState) (complexity : Nat) : CADState :=
  let outer := [wallLine 0 0 1000 0, wallLine 1000 0 1000 800,
                wallLine 1000 800 0 800, wallLine 0 800 0 0]
  let interior :=
    (if complexity > 10 then [wallLine 400 0 400 800, wallLine 0 400 1000 400] else []) ++
    (if complexity > 25 then [wallLine 700 400 700 800, wallLine 400 600 1000 600] else [])
  { st with
    entities := st.entities ++ outer ++ interior
    layers := insertLayer st.layers "WALLS"
    bounds := { minX := .fin 0, minY := .fin 0, maxX := .fin 1000, maxY := .fin 800 } }

/-- `CADProcessor._analyze_dwg_structure`: estimate a complexity from
the file size and return a fabricated Result. -/
def analyzeDwgStructure (st : CADState) (fileSize : Nat) : Result :=
  let complexity := min (fileSize / 1000) 50
  buildResult (createBasicFloorPlan st complexity)

/-- A DWG source as `process_dwg` sees it: either ezdxf parses it, or
any parse failure (the bare `except:`) routes to the file-size
fallback. -/
inductive DwgSource where
  | parsed (doc : DxfDoc)
  | unparseable (fileSize : Nat)
deriving DecidableEq, Repr

/-- `CADProcessor.process_dwg`: on a parsed document run the model-space
pipeline (no block pass); on parse failure return the fabricated
structure — no error is raised in that case. -/
def processDwg : DwgSource → Result
  | .parsed doc =>
      buildResult
        (detectUnits (calculateBounds (processModelSpace initState doc.modelSpace))
          doc.insunits)
  | .unparseable sz => analyzeDwgStructure initState sz

/-- `CADProcessor._image_to_cad_coords`: map pixel coordinates into a
100x100 span, flipping the Y axis. -/
def imageToCadCoords (imgX imgY imgWidth imgHeight : ℚ) : Point :=
  { x := imgX / imgWidth * 100, y := (imgHeight - imgY) / imgHeight * 100 }

/-- One Hough line segment `(x1, y1, x2, y2)` as returned by the
external detector in `_extract_pdf_geometry`. -/
structure HoughLine where
  x1 : ℚ
  y1 : ℚ
  x2 : ℚ
  y2 : ℚ
deriving DecidableEq, Repr

/-- One external contour of the PDF pathway: its `cv2.contourArea` and
the polygon `cv2.approxPolyDP` yields for it (external collaborator
outputs). -/
structure PdfContour where
  area : ℚ
  approx : List (ℚ × ℚ)
deriving DecidableEq, Repr

/-- A decoded PDF page: pixel dimensions plus the outputs of the two
external detectors run over it. -/
structure PdfPage where
  width : ℚ
  height : ℚ
  houghLines : List HoughLine
  contours : List PdfContour
deriving DecidableEq, Repr

/-- The `LINE` entity the PDF pathway appends for one detected segment
(layer `PDF_LINES`, Euclidean `length` property). -/
def pdfLineEntity (w h : ℚ) (l : HoughLine) : Entity :=
  let p1 := imageToCadCoords l.x1 l.y1 w h
  let p2 := imageToCadCoords l.x2 l.y2 w h
  { type := "LINE", layer := "PDF_LINES", coordinates := [p1, p2],
    properties := [("length", .sqrtNum ((p2.x - p1.x) ^ 2 + (p2.y - p1.y) ^ 2))],
    is_block := false }

/-- The contour half of `_extract_pdf_geometry` for the contour at
0-based index `i`: keep it only when `area > 5000` and the simplified
polygon has at least 3 vertices; layer `ROOM_{i+1}`,
`area` scaled by `scale * scale`. -/
def pdfRoomEntity (w h scale : ℚ) (i : Nat) (c : PdfContour) : Option Entity :=
  if c.area > 5000 ∧ c.approx.length ≥ 3 then
    some
      { type := "POLYLINE", layer := "ROOM_" ++ toString (i + 1),
        coordinates := c.approx.map (fun p => imageToCadCoords p.1 p.2 w h),
        properties := [("area", .num (c.area * scale * scale)), ("closed", .boolV true)],
        is_block := false }
  else none

/-- `CADProcessor._extract_pdf_geometry`: append a `LINE` entity per
detected segment, then a `POLYLINE` room entity per large contour;
`self.bounds` is never touched. -/
def extractPdfGeometry (st : CADState) (page : PdfPage) : CADState :=
  let st1 := page.houghLines.foldl
    (fun st l =>
      { st with entities := st.entities ++ [pdfLineEntity page.width page.height l],
                layers := insertLayer st.layers "PDF_LINES" })
    st
  (page.contours.enum).foldl
    (fun st ic =>
      match pdfRoomEntity page.width page.height st.scale ic.1 ic.2 with
      | some e =>
          { st with entities := st.entities ++ [e],
                    layers := insertLayer st.layers e.layer }
      | none => st)
    st1

/-- `CADProcessor.process_pdf` on the first decoded page: extract
geometry and build the result — `_calculate_bounds` and `_detect_units`
are never called on this pathway. -/
def processPdf (page : PdfPage) : Result :=
  buildResult (extractPdfGeometry initState page)

/-- `process_pdf` including the no-pages check of the source. -/
def processPdfFile : List PdfPage → Except String Result
  | [] => .error "Failed to process PDF file: No pages found in PDF"
  | page :: _ => .ok (processPdf page)

/-- One contour found by `cv2.findContours` in
`ImageProcessor._extract_geometry`: its area, the simplified polygon
`cv2.approxPolyDP` yields, and whether `hierarchy[0][i][3] != -1`
(external collaborator outputs). -/
structure ImgContour where
  area : ℚ
  approx : List (ℚ × ℚ)
  hasParent : Bool
deriving DecidableEq, Repr

/-- Mutable state of an `ImageProcessor` instance. -/
structure ImgState where
  entities : List Entity
  layers : List String
  bounds : Bounds
  scale : ℚ
  units : String
deriving DecidableEq, Repr

/-- `ImageProcessor.__init__`. -/
def imgInitState : ImgState :=
  { entities := []
    layers := []
    bounds := { minX := .fin 0, minY := .fin 0, maxX := .fin 100, maxY := .fin 100 }
    scale := 1
    units := "m" }

/-- `ImageProcessor._determine_entity_type`. -/
def determineEntityType (approxLen : Nat) (hasParent : Bool) (area : ℚ) : String :=
  if approxLen = 4 ∧ hasParent = false then "WALLS"
  else if hasParent then (if area < 500 then "DOORS" else "RESTRICTED")
  else "ROOMS"

/-- The entity `_extract_geometry` builds for one surviving contour
(note: coordinates are normalized to 0-100 with *no* Y flip, unlike the
PDF pathway). -/
def imgContourEntity (w h : ℚ) (c : ImgContour) : Entity :=
  let t := determineEntityType c.approx.length c.hasParent c.area
  { type := "POLYLINE", layer := t,
    coordinates := c.approx.map (fun p => { x := p.1 / w * 100, y := p.2 / h * 100 }),
    properties := [("closed", .boolV true), ("area", .num c.area)],
    is_block := false }

/-- `ImageProcessor._extract_geometry`: skip contours with area below
100, else append one closed `POLYLINE` entity and record its layer. -/
def extractGeometry (st : ImgState) (contours : List ImgContour) (w h : ℚ) : ImgState :=
  contours.foldl
    (fun st c =>
      if c.area < 100 then st
      else
        let e := imgContourEntity w h c
        { st with entities := st.entities ++ [e],
                  layers := insertLayer st.layers e.layer })
    st

/-- `self._calculate_bounds()` on the image state (same code as the CAD
version, including the 10% padding). -/
def imgCalculateBounds (st : ImgState) : ImgState :=
  { st with bounds := calcBoundsOn st.entities st.bounds }

/-- `ImageProcessor._build_result` (the `blocks` field is the empty
dict). -/
def imgBuildResult (st : ImgState) : Result :=
  { entities := st.entities
    bounds := st.bounds
    scale := st.scale
    units := st.units
    layers := st.layers
    blocks := []
    entity_count := st.entities.length
    layer_count := st.layers.length }

/-- `ImageProcessor.process_image` on a successfully decoded image,
given the external contour-detector output for its binarized mask. -/
def processImage (contours : List ImgContour) (w h : ℚ) : Result :=
  imgBuildResult (imgCalculateBounds (extractGeometry imgInitState contours w h))

/-- Claim-side predicate: the point lies inside the bounds. -/
def boundsContainsPoint (b : Bounds) (p : Point) : Bool :=
  eleb b.minX (.fin p.x) && eleb (.fin p.x) b.maxX &&
  eleb b.minY (.fin p.y) && eleb (.fin p.y) b.maxY

/-- Claim-side predicate (C1): the bounds contain the whole axis-aligned
square `[c.x - r, c.x + r] x [c.y - r, c.y + r]`. -/
def boundsContainsSquare (b : Bounds) (c : Point) (r : ℚ) : Bool :=
  eleb b.minX (.fin (c.x - r)) && eleb (.fin (c.x + r)) b.maxX &&
  eleb b.minY (.fin (c.y - r)) && eleb (.fin (c.y + r)) b.maxY

/-- The supported type tags named by C2 (line, polyline variants,
circle, arc, text variants, insert, hatch, dimension). -/
def supportedKinds : List String :=
  ["LINE", "LWPOLYLINE", "POLYLINE", "CIRCLE", "ARC", "TEXT", "MTEXT",
   "INSERT", "HATCH", "DIMENSION"]

/-- Stated from the spec's words for C7: the raw accumulated min/max
extent of the entity coordinates, with no padding applied. -/
def rawExtentBounds (es : List Entity) : Bounds :=
  let f := foldExtent (entityCoords es)
  { minX := f.1, minY := f.2.1, maxX := f.2.2.1, maxY := f.2.2.2 }

/-- The 10%-padding transformation applied to an extent. -/
def paddedOf (b : Bounds) : Bounds :=
  padBounds b.minX b.minY b.maxX b.maxY

/-- C4's amended factor table: inches, feet, millimeters and centimeters
convert to meters; every other code (unitless, miles, meters,
kilometers, unknown) yields factor 1. -/
def amendedFactor (code : Nat) : ℚ :=
  if code = 1 then 254 / 10000
  else if code = 2 then 3048 / 10000
  else if code = 4 then 1 / 1000
  else if code = 5 then 1 / 100
  else 1

/-- `self.layers.add` iterated over a list of names. -/
def insertLayers (l : List String) (ss : List String) : List String :=
  ss.foldl insertLayer l

/-- Layers of the members of all non-anonymous blocks, in traversal
order. -/
def blockMemberLayers : List (String × List DxfEntity) → List String
  | [] => []
  | b :: bs =>
      (if isAnonymous b.1 then [] else b.2.map layerOf) ++ blockMemberLayers bs

/-- All layer names `process_dxf` visits: non-anonymous block members
first, then model-space objects. -/
def dxfProcessedLayers (doc : DxfDoc) : List String :=
  blockMemberLayers doc.blocks ++ doc.modelSpace.map layerOf

/-- Running `min` fold over a list of rationals, as `_calculate_bounds`
does per axis. -/
def foldMinFrom (a : ERat) (l : List ℚ) : ERat :=
  l.foldl (fun acc q => emin acc (.fin q)) a

/-- Running `max` fold over a list of rationals. -/
def foldMaxFrom (a : ERat) (l : List ℚ) : ERat :=
  l.foldl (fun acc q => emax acc (.fin q)) a

/-- A document holding one circle of radius 2 centered at (5,5). -/
def circleDoc : DxfDoc :=
  { blocks := [], modelSpace := [.circle "L0" { x := 5, y := 5 } 2], insunits := none }

/-- A document whose block `DOOR` holds one line on layer `L1`. -/
def doorBlockDoc : DxfDoc :=
  { blocks := [("DOOR", [.line "L1" { x := 0, y := 0 } { x := 1, y := 0 }])],
    modelSpace := [], insunits := none }

/-- A document whose block `B1` holds one (unsupported) object on layer
`LBLOCK`, and whose model space is empty. -/
def blockLayerDoc : DxfDoc :=
  { blocks := [("B1", [.other "SOLID" "LBLOCK"])], modelSpace := [], insunits := none }

/-- A document whose model space holds one unsupported `ELLIPSE`. -/
def ellipseDoc : DxfDoc :=
  { blocks := [], modelSpace := [.other "ELLIPSE" "L0"], insunits := none }

/-- A document with two lines on two distinct layers `A` and `B`. -/
def twoLayerDoc : DxfDoc :=
  { blocks := [],
    modelSpace := [.line "A" { x := 0, y := 0 } { x := 1, y := 0 },
                   .line "B" { x := 0, y := 0 } { x := 1, y := 1 }],
    insunits := none }

/-- A triangular raster contour of area 200 spanning x,y in [0,10]. -/
def triContour : ImgContour :=
  { area := 200, approx := [(0, 0), (10, 0), (10, 10)], hasParent := false }

/-- A raster contour below the noise threshold of 100. -/
def tinyContour : ImgContour :=
  { area := 50, approx := [(0, 0)], hasParent := false }

theorem entityOf_layer (b : Bool) (e : DxfEntity) : (entityOf b e).layer = layerOf e := by
  cases e <;> rfl

theorem processEntityState_layers (st : CADState) (b : Bool) (e : DxfEntity) :
    (processEntityState st b e).layers = insertLayer st.layers (layerOf e) := by
  unfold processEntityState
  split <;> simp [entityOf_layer]

theorem processEntityState_bounds (st : CADState) (b : Bool) (e : DxfEntity) :
    (processEntityState st b e).bounds = st.bounds := by
  unfold processEntityState
  split <;> rfl

theorem processEntityState_scale (st : CADState) (b : Bool) (e : DxfEntity) :
    (processEntityState st b e).scale = st.scale := by
  unfold processEntityState
  split <;> rfl

theorem processEntityState_units (st : CADState) (b : Bool) (e : DxfEntity) :
    (processEntityState st b e).units = st.units := by
  unfold processEntityState
  split <;> rfl

theorem processEntityState_true_entities (st : CADState) (e : DxfEntity) :
    (processEntityState st true e).entities = st.entities := rfl

theorem processEntityState_false_entities (st : CADState) (e : DxfEntity) :
    (processEntityState st false e).entities = st.entities ++ [entityOf false e] := rfl

theorem processEntityState_false_blocks (st : CADState) (e : DxfEntity) :
    (processEntityState st false e).blocks = st.blocks := rfl

theorem blockFold_entities (es : List DxfEntity) :
    ∀ st : CADState,
      (es.foldl (fun st e => processEntityState st true e) st).entities = st.entities := by
  induction es with
  | nil => intro st; rfl
  | cons e es ih =>
      intro st
      rw [List.foldl_cons, ih, processEntityState_true_entities]

theorem blockFold_layers (es : List DxfEntity) :
    ∀ st : CADState,
      (es.foldl (fun st e => processEntityState st true e) st).layers
        = insertLayers st.layers (es.map layerOf) := by
  induction es with
  | nil => intro st; rfl
  | cons e es ih =>
      intro st
      rw [List.foldl_cons, ih, processEntityState_layers]
      rfl

theorem blockFold_bounds (es : List DxfEntity) :
    ∀ st : CADState,
      (es.foldl (fun st e => processEntityState st true e) st).bounds = st.bounds := by
  induction es with
  | nil => intro st; rfl
  | cons e es ih =>
      intro st
      rw [List.foldl_cons, ih, processEntityState_bounds]

theorem blockFold_scale (es : List DxfEntity) :
    ∀ st : CADState,
      (es.foldl (fun st e => processEntityState st true e) st).scale = st.scale := by
  induction es with
  | nil => intro st; rfl
  | cons e es ih =>
      intro st
      rw [List.foldl_cons, ih, processEntityState_scale]

theorem processBlocks_entities (bs : List (String × List DxfEntity)) :
    ∀ st : CADState, (processBlocks st bs).entities = st.entities := by
  induction bs with
  | nil => intro st; rfl
  | cons b bs ih =>
      intro st
      unfold processBlocks
      rw [List.foldl_cons]
      split
      · exact ih st
      · rw [show ∀ s, (List.foldl (fun st b =>
            if isAnonymous b.1 then st
            else
              b.2.foldl (fun st e => processEntityState st true e)
                { st with blocks := dictSet st.blocks b.1 [] }) s bs) = processBlocks s bs
          from fun _ => rfl, ih, blockFold_entities]

theorem processBlocks_layers (bs : List (String × List DxfEntity)) :
    ∀ st : CADState,
      (processBlocks st bs).layers = insertLayers st.layers (blockMemberLayers bs) := by
  induction bs with
  | nil => intro st; rfl
  | cons b bs ih =>
      intro st
      unfold processBlocks
      rw [List.foldl_cons]
      split
      · rename_i h
        rw [show ∀ s, (List.foldl (fun st b =>
            if isAnonymous b.1 then st
            else
              b.2.foldl (fun st e => processEntityState st true e)
                { st with blocks := dictSet st.blocks b.1 [] }) s bs) = processBlocks s bs
          from fun _ => rfl, ih]
        simp [blockMemberLayers, h]
      · rename_i h
        rw [show ∀ s, (List.foldl (fun st b =>
            if isAnonymous b.1 then st
            else
              b.2.foldl (fun st e => processEntityState st true e)
                { st with blocks := dictSet st.blocks b.1 [] }) s bs) = processBlocks s bs
          from fun _ => rfl, ih, blockFold_layers]
        simp only [blockMemberLayers, Bool.not_eq_true] at h ⊢
        rw [if_neg (by simp [h]), insertLayers, insertLayers, insertLayers, List.foldl_append]

theorem processBlocks_bounds (bs : List (String × List DxfEntity)) :
    ∀ st : CADState, (processBlocks st bs).bounds = st.bounds := by
  induction bs with
  | nil => intro st; rfl
  | cons b bs ih =>
      intro st
      unfold processBlocks
      rw [List.foldl_cons]
      split
      · exact ih st
      · rw [show ∀ s, (List.foldl (fun st b =>
            if isAnonymous b.1 then st
            else
              b.2.foldl (fun st e => processEntityState st true e)
                { st with blocks := dictSet st.blocks b.1 [] }) s bs) = processBlocks s bs
          from fun _ => rfl, ih, blockFold_bounds]

theorem processModelSpace_entities (es : List DxfEntity) :
    ∀ st : CADState,
      (processModelSpace st es).entities = st.entities ++ es.map (entityOf false) := by
  induction es with
  | nil => intro st; simp [processModelSpace]
  | cons e es ih =>
      intro st
      unfold processModelSpace
      rw [List.foldl_cons]
      rw [show ∀ s, List.foldl (fun st e => processEntityState st false e) s es
            = processModelSpace s es from fun _ => rfl, ih,
          processEntityState_false_entities]
      simp

theorem processModelSpace_layers (es : List DxfEntity) :
    ∀ st : CADState,
      (processModelSpace st es).layers = insertLayers st.layers (es.map layerOf) := by
  induction es with
  | nil => intro st; rfl
  | cons e es ih =>
      intro st
      unfold processModelSpace
      rw [List.foldl_cons]
      rw [show ∀ s, List.foldl (fun st e => processEntityState st false e) s es
            = processModelSpace s es from fun _ => rfl, ih, processEntityState_layers]
      rfl

theorem processModelSpace_bounds (es : List DxfEntity) :
    ∀ st : CADState, (processModelSpace st es).bounds = st.bounds := by
  induction es with
  | nil => intro st; rfl
  | cons e es ih =>
      intro st
      unfold processModelSpace
      rw [List.foldl_cons]
      rw [show ∀ s, List.foldl (fun st e => processEntityState st false e) s es
            = processModelSpace s es from fun _ => rfl, ih, processEntityState_bounds]

theorem pipelineState_entities (doc : DxfDoc) :
    (pipelineState doc).entities = doc.modelSpace.map (entityOf false) := by
  unfold pipelineState detectUnits calculateBounds
  simp [processModelSpace_entities, processBlocks_entities, initState]

theorem pipelineState_layers (doc : DxfDoc) :
    (pipelineState doc).layers = insertLayers [] (dxfProcessedLayers doc) := by
  unfold pipelineState detectUnits calculateBounds
  simp only [processModelSpace_layers, processBlocks_layers]
  rw [dxfProcessedLayers, insertLayers, insertLayers, insertLayers, List.foldl_append]
  rfl

theorem pipelineState_bounds (doc : DxfDoc) :
    (pipelineState doc).bounds
      = calcBoundsOn (pipelineState doc).entities initState.bounds := by
  rw [pipelineState_entities]
  unfold pipelineState detectUnits calculateBounds
  simp [processModelSpace_entities, processBlocks_entities,
        processModelSpace_bounds, processBlocks_bounds, initState]

theorem mem_insertLayer (l : List String) (s x : String) :
    x ∈ insertLayer l s ↔ x ∈ l ∨ x = s := by
  unfold insertLayer
  split <;> rename_i h
  · constructor
    · exact Or.inl
    · rintro (hx | rfl)
      · exact hx
      · exact h
  · simp

theorem nodup_insertLayer (l : List String) (s : String) (h : l.Nodup) :
    (insertLayer l s).Nodup := by
  unfold insertLayer
  split <;> rename_i hs
  · exact h
  · simp [List.nodup_append, h, hs]

theorem mem_insertLayers (ss : List String) :
    ∀ l x, x ∈ insertLayers l ss ↔ x ∈ l ∨ x ∈ ss := by
  induction ss with
  | nil => intro l x; simp [insertLayers]
  | cons s ss ih =>
      intro l x
      rw [show insertLayers l (s :: ss) = insertLayers (insertLayer l s) ss from rfl, ih,
          mem_insertLayer]
      simp
      tauto

theorem nodup_insertLayers (ss : List String) :
    ∀ l, l.Nodup → (insertLayers l ss).Nodup := by
  induction ss with
  | nil => intro l h; exact h
  | cons s ss ih =>
      intro l h
      exact ih (insertLayer l s) (nodup_insertLayer l s h)

theorem emin_ne_nan (a : ERat) (x : ℚ) (h : a ≠ .nan) : emin a (.fin x) ≠ .nan := by
  cases a <;> simp_all [emin]

theorem emax_ne_nan (a : ERat) (x : ℚ) (h : a ≠ .nan) : emax a (.fin x) ≠ .nan := by
  cases a <;> simp_all [emax]

theorem eleb_emin (a : ERat) (x q : ℚ) (h : eleb a (.fin q) = true) :
    eleb (emin a (.fin x)) (.fin q) = true := by
  cases a <;> simp_all [emin, eleb]

theorem eleb_emax (a : ERat) (x q : ℚ) (h : eleb (.fin q) a = true) :
    eleb (.fin q) (emax a (.fin x)) = true := by
  cases a <;> simp_all [emax, eleb]

theorem eleb_emin_self (a : ERat) (x : ℚ) (h : a ≠ .nan) :
    eleb (emin a (.fin x)) (.fin x) = true := by
  cases a <;> simp_all [emin, eleb]

theorem eleb_emax_self (a : ERat) (x : ℚ) (h : a ≠ .nan) :
    eleb (.fin x) (emax a (.fin x)) = true := by
  cases a <;> simp_all [emax, eleb]

theorem foldMinFrom_le (l : List ℚ) :
    ∀ (a : ERat) (q : ℚ), eleb a (.fin q) = true → eleb (foldMinFrom a l) (.fin q) = true := by
  induction l with
  | nil => intro a q h; exact h
  | cons x xs ih =>
      intro a q h
      exact ih (emin a (.fin x)) q (eleb_emin a x q h)

theorem foldMaxFrom_ge (l : List ℚ) :
    ∀ (a : ERat) (q : ℚ), eleb (.fin q) a = true → eleb (.fin q) (foldMaxFrom a l) = true := by
  induction l with
  | nil => intro a q h; exact h
  | cons x xs ih =>
      intro a q h
      exact ih (emax a (.fin x)) q (eleb_emax a x q h)

theorem foldMinFrom_le_mem (l : List ℚ) :
    ∀ (a : ERat) (q : ℚ), q ∈ l → a ≠ .nan → eleb (foldMinFrom a l) (.fin q) = true := by
  induction l with
  | nil => intro a q h; cases h
  | cons x xs ih =>
      intro a q hq ha
      rcases List.mem_cons.mp hq with rfl | hq
      · exact foldMinFrom_le xs (emin a (.fin q)) q (eleb_emin_self a q ha)
      · exact ih (emin a (.fin x)) q hq (emin_ne_nan a x ha)

theorem foldMaxFrom_ge_mem (l : List ℚ) :
    ∀ (a : ERat) (q : ℚ), q ∈ l → a ≠ .nan → eleb (.fin q) (foldMaxFrom a l) = true := by
  induction l with
  | nil => intro a q h; cases h
  | cons x xs ih =>
      intro a q hq ha
      rcases List.mem_cons.mp hq with rfl | hq
      · exact foldMaxFrom_ge xs (emax a (.fin q)) q (eleb_emax_self a q ha)
      · exact ih (emax a (.fin x)) q hq (emax_ne_nan a x ha)

theorem foldMinFrom_shape (l : List ℚ) :
    ∀ a : ERat, (a = .pinf ∨ ∃ m, a = .fin m) →
      (foldMinFrom a l = .pinf ∨ ∃ m, foldMinFrom a l = .fin m) := by
  induction l with
  | nil => intro a h; exact h
  | cons x xs ih =>
      intro a h
      rcases h with rfl | ⟨m, rfl⟩
      · exact ih (emin .pinf (.fin x)) (Or.inr ⟨x, rfl⟩)
      · exact ih (emin (.fin m) (.fin x)) (Or.inr ⟨min m x, rfl⟩)

theorem foldMaxFrom_shape (l : List ℚ) :
    ∀ a : ERat, (a = .ninf ∨ ∃ m, a = .fin m) →
      (foldMaxFrom a l = .ninf ∨ ∃ m, foldMaxFrom a l = .fin m) := by
  induction l with
  | nil => intro a h; exact h
  | cons x xs ih =>
      intro a h
      rcases h with rfl | ⟨m, rfl⟩
      · exact ih (emax .ninf (.fin x)) (Or.inr ⟨x, rfl⟩)
      · exact ih (emax (.fin m) (.fin x)) (Or.inr ⟨max m x, rfl⟩)

theorem foldExtent_eq (coords : List Point) :
    ∀ a b c d : ERat,
      coords.foldl
        (fun acc c' =>
          (emin acc.1 (.fin c'.x), emin acc.2.1 (.fin c'.y),
           emax acc.2.2.1 (.fin c'.x), emax acc.2.2.2 (.fin c'.y)))
        (a, b, c, d)
      = (foldMinFrom a (coords.map Point.x), foldMinFrom b (coords.map Point.y),
         foldMaxFrom c (coords.map Point.x), foldMaxFrom d (coords.map Point.y)) := by
  induction coords with
  | nil => intro a b c d; rfl
  | cons p ps ih =>
      intro a b c d
      rw [List.foldl_cons]
      exact ih (emin a (.fin p.x)) (emin b (.fin p.y)) (emax c (.fin p.x)) (emax d (.fin p.y))

theorem foldExtent_spec (coords : List Point) :
    foldExtent coords
      = (foldMinFrom .pinf (coords.map Point.x), foldMinFrom .pinf (coords.map Point.y),
         foldMaxFrom .ninf (coords.map Point.x), foldMaxFrom .ninf (coords.map Point.y)) := by
  unfold foldExtent
  exact foldExtent_eq coords .pinf .pinf .ninf .ninf

theorem mem_entityCoords (es : List Entity) (e : Entity) (p : Point)
    (he : e ∈ es) (hp : p ∈ e.coordinates) : p ∈ entityCoords es := by
  unfold entityCoords
  exact List.mem_flatten.mpr ⟨e.coordinates, List.mem_map_of_mem _ he, hp⟩

theorem calcBoundsOn_contains (es : List Entity) (b0 : Bounds) (e : Entity) (p : Point)
    (he : e ∈ es) (hp : p ∈ e.coordinates) :
    boundsContainsPoint (calcBoundsOn es b0) p = true := by
  have hne : es ≠ [] := by rintro rfl; cases he
  have hpc : p ∈ entityCoords es := mem_entityCoords es e p he hp
  have hx : p.x ∈ (entityCoords es).map Point.x := List.mem_map_of_mem _ hpc
  have hy : p.y ∈ (entityCoords es).map Point.y := List.mem_map_of_mem _ hpc
  unfold calcBoundsOn
  rw [if_neg (by simp [hne])]
  rw [foldExtent_spec]
  have hminx := foldMinFrom_le_mem _ .pinf p.x hx (by simp)
  have hmaxx := foldMaxFrom_ge_mem _ .ninf p.x hx (by simp)
  have hminy := foldMinFrom_le_mem _ .pinf p.y hy (by simp)
  have hmaxy := foldMaxFrom_ge_mem _ .ninf p.y hy (by simp)
  rcases foldMinFrom_shape ((entityCoords es).map Point.x) .pinf (Or.inl rfl) with hsx | ⟨m, hsx⟩
  · rw [hsx] at hminx; simp [eleb] at hminx
  rcases foldMaxFrom_shape ((entityCoords es).map Point.x) .ninf (Or.inl rfl) with htx | ⟨M, htx⟩
  · rw [htx] at hmaxx; simp [eleb] at hmaxx
  rcases foldMinFrom_shape ((entityCoords es).map Point.y) .pinf (Or.inl rfl) with hsy | ⟨m', hsy⟩
  · rw [hsy] at hminy; simp [eleb] at hminy
  rcases foldMaxFrom_shape ((entityCoords es).map Point.y) .ninf (Or.inl rfl) with hty | ⟨M', hty⟩
  · rw [hty] at hmaxy; simp [eleb] at hmaxy
  rw [hsx] at hminx
  rw [htx] at hmaxx
  rw [hsy] at hminy
  rw [hty] at hmaxy
  simp only [eleb, decide_eq_true_eq] at hminx hmaxx hminy hmaxy
  simp only [hsx, htx, hsy, hty, padBounds, boundsContainsPoint, escale, esub, eadd, eleb]
  simp only [Bool.and_eq_true, decide_eq_true_eq]
  have hpad : (0 : ℚ) ≤ 1 / 10 * (M - m) := by
    have : m ≤ M := le_trans hminx hmaxx
    nlinarith
  refine ⟨⟨⟨by linarith, by linarith⟩, by linarith⟩, by linarith⟩

theorem extractGeometry_skip_all (contours : List ImgContour) :
    ∀ (st : ImgState) (w h : ℚ), (∀ c ∈ contours, c.area < 100) →
      extractGeometry st contours w h = st := by
  induction contours with
  | nil => intro st w h _; rfl
  | cons c cs ih =>
      intro st w h hall
      unfold extractGeometry
      rw [List.foldl_cons, if_pos (hall c (List.mem_cons_self c cs))]
      exact ih st w h (fun c' hc' => hall c' (List.mem_cons_of_mem c hc'))

theorem extractGeometry_bounds (cs : List ImgContour) :
    ∀ (st : ImgState) (w h : ℚ), (extractGeometry st cs w h).bounds = st.bounds := by
  induction cs with
  | nil => intro st w h; rfl
  | cons c cs ih =>
      intro st w h
      show (extractGeometry
        (if c.area < 100 then st
         else
           { st with entities := st.entities ++ [imgContourEntity w h c],
                     layers := insertLayer st.layers (imgContourEntity w h c).layer })
        cs w h).bounds = st.bounds
      rw [ih]
      split <;> rfl

theorem pdfLineFold_bounds (ls : List HoughLine) (w h : ℚ) :
    ∀ st : CADState,
      (ls.foldl
        (fun st l =>
          { st with entities := st.entities ++ [pdfLineEntity w h l],
                    layers := insertLayer st.layers "PDF_LINES" })
        st).bounds = st.bounds := by
  induction ls with
  | nil => intro st; rfl
  | cons l ls ih =>
      intro st
      rw [List.foldl_cons, ih]

theorem pdfRoomFold_bounds (cs : List (Nat × PdfContour)) (w hh : ℚ) :
    ∀ st : CADState,
      (cs.foldl
        (fun st ic =>
          match pdfRoomEntity w hh st.scale ic.1 ic.2 with
          | some e =>
              { st with entities := st.entities ++ [e],
                        layers := insertLayer st.layers e.layer }
          | none => st)
        st).bounds = st.bounds := by
  induction cs with
  | nil => intro st; rfl
  | cons c cs ih =>
      intro st
      rw [List.foldl_cons, ih]
      cases hr : pdfRoomEntity w hh st.scale c.1 c.2 <;> simp [hr]

/-- C1 counterexample: a document holding one circle of radius 2 at
(5,5) yields bounds equal to the degenerate box (5,5)-(5,5) (padding is
zero because the x-span is zero); the square center ± radius is *not*
contained, because `_calculate_bounds` never reads the `radius`
property. -/
theorem c1_radius_ignored_cex :
    (processDxf circleDoc).entities
      = [{ type := "CIRCLE", layer := "L0", coordinates := [{ x := 5, y := 5 }],
           properties := [("radius", PropVal.num 2)], is_block := false }]
    ∧ (processDxf circleDoc).bounds
        = { minX := .fin 5, minY := .fin 5, maxX := .fin 5, maxY := .fin 5 }
    ∧ boundsContainsSquare (processDxf circleDoc).bounds { x := 5, y := 5 } 2 = false := by
  refine ⟨by decide, ?_, ?_⟩ <;>
    norm_num [processDxf, pipelineState, processModelSpace, processBlocks, processEntityState,
      entityOf, insertLayer, calculateBounds, calcBoundsOn, entityCoords, foldExtent,
      padBounds, escale, esub, eadd, emin, emax, detectUnits, unitMap, scaleOfUnit,
      buildResult, circleDoc, initState, boundsContainsSquare, eleb]

/-- C1 (amended): the computed bounds contain every raw coordinate of
every top-level entity (the min/max extent plus a nonnegative 10%
padding), but are not expanded by a circle's or arc's radius. -/
theorem c1_bounds_contain_raw_points (doc : DxfDoc) (e : Entity) (p : Point)
    (he : e ∈ (processDxf doc).entities) (hp : p ∈ e.coordinates) :
    boundsContainsPoint (processDxf doc).bounds p = true := by
  have hent : (processDxf doc).entities = (pipelineState doc).entities := rfl
  have hb : (processDxf doc).bounds = (pipelineState doc).bounds := rfl
  rw [hb, pipelineState_bounds]
  exact calcBoundsOn_contains _ _ e p (hent ▸ he) hp

/-- C1 witness: the circle's center (5,5) is inside the computed
bounds of `circleDoc`. -/
theorem c1_bounds_contain_raw_points_witness :
    ({ type := "CIRCLE", layer := "L0", coordinates := [{ x := 5, y := 5 }],
       properties := [("radius", PropVal.num 2)], is_block := false } : Entity)
        ∈ (processDxf circleDoc).entities
    ∧ boundsContainsPoint (processDxf circleDoc).bounds { x := 5, y := 5 } = true :=
  ⟨by decide,
   c1_bounds_contain_raw_points circleDoc
     { type := "CIRCLE", layer := "L0", coordinates := [{ x := 5, y := 5 }],
       properties := [("radius", PropVal.num 2)], is_block := false }
     { x := 5, y := 5 } (by decide) (by decide)⟩

/-- C2 counterexample: a model space holding one unsupported `ELLIPSE`
object produces an entity for it (type tag `ELLIPSE`, empty coordinates)
— unsupported objects are not skipped. -/
theorem c2_unsupported_entity_emitted_cex :
    (processDxf ellipseDoc).entities
      = [{ type := "ELLIPSE", layer := "L0", coordinates := [], properties := [],
           is_block := false }]
    ∧ supportedKinds.contains "ELLIPSE" = false
    ∧ (processDxf ellipseDoc).entities.all
        (fun e => supportedKinds.contains e.type) = false := by
  refine ⟨by decide, by decide, by decide⟩

/-- C2 (amended): every model-space object, supported or not, yields
exactly one entity record in traversal order; an unsupported object's
record keeps its raw type tag with empty coordinates and properties. -/
theorem c2_every_object_emits_entity (doc : DxfDoc) :
    (processDxf doc).entities = doc.modelSpace.map (entityOf false) :=
  pipelineState_entities doc

/-- C3 counterexample: an unparseable 5000-byte DWG file does not raise;
it returns a fabricated Result with four synthetic wall lines and bounds
(0,0)-(1000,800) derived from the file size. -/
theorem c3_dwg_fabricated_result_cex :
    (processDwg (.unparseable 5000)).entity_count = 4
    ∧ (processDwg (.unparseable 5000)).bounds
        = { minX := .fin 0, minY := .fin 0, maxX := .fin 1000, maxY := .fin 800 }
    ∧ (processDwg (.unparseable 5000)).layers = ["WALLS"]
    ∧ (processDwg (.unparseable 5000)).entities.all
        (fun e => e.type == "LINE" && e.layer == "WALLS") = true := by
  refine ⟨by decide, by decide, by decide, by decide⟩

/-- C3 (amended): an unreadable DXF source surfaces one terminal error
and no Result, but an unparseable DWG source returns a fabricated
Result: synthetic `LINE` walls whose count (4, 6 or 8) is derived from
the file size, fixed bounds (0,0)-(1000,800) and layer list
`[WALLS]`. -/
theorem c3_dxf_error_dwg_fallback (msg : String) (sz : Nat) :
    processDxfFile (.error msg) = .error ("Failed to process DXF file: " ++ msg)
    ∧ (processDwg (.unparseable sz)).bounds
        = { minX := .fin 0, minY := .fin 0, maxX := .fin 1000, maxY := .fin 800 }
    ∧ (processDwg (.unparseable sz)).layers = ["WALLS"]
    ∧ (processDwg (.unparseable sz)).entities.all
        (fun e => e.type == "LINE" && e.layer == "WALLS") = true
    ∧ (processDwg (.unparseable sz)).entity_count
        = (if 25 < min (sz / 1000) 50 then 8
           else if 10 < min (sz / 1000) 50 then 6 else 4) := by
  refine ⟨rfl, ?_, ?_, ?_, ?_⟩ <;>
    simp only [processDwg, analyzeDwgStructure, createBasicFloorPlan, buildResult,
               initState, insertLayer, wallLine, List.not_mem_nil, if_false] <;>
    first
      | rfl
      | (split_ifs <;> first | rfl | omega)

/-- C4 counterexample: unit codes 3 (miles) and 7 (kilometers) yield
factor 1, not the meters-conversion constants 1609.344 and 1000 the
claim states. -/
theorem c4_miles_km_factor_cex :
    (detectUnits initState (some 3)).scale = 1
    ∧ (detectUnits initState (some 7)).scale = 1
    ∧ (detectUnits initState (some 3)).scale ≠ 1609344 / 1000
    ∧ (detectUnits initState (some 7)).scale ≠ 1000 := by
  refine ⟨rfl, rfl, ?_, ?_⟩
  · show (1 : ℚ) ≠ 1609344 / 1000
    norm_num
  · show (1 : ℚ) ≠ 1000
    norm_num

/-- C4 (amended): the factor table converts inches (0.0254), feet
(0.3048), millimeters (0.001) and centimeters (0.01) to meters; every
other code — unitless, meters, but also miles and kilometers — yields
factor 1.  The factor is always positive and the units label is always
standardized to `m`. -/
theorem c4_factor_table (st : CADState) (code : Option Nat) :
    (detectUnits st code).scale = amendedFactor (code.getD 0)
    ∧ 0 < (detectUnits st code).scale
    ∧ (detectUnits st code).units = "m" := by
  have h : ∀ n : Nat, scaleOfUnit (unitMap n) = amendedFactor n := by
    intro n
    by_cases h0 : n = 0
    · subst h0; rfl
    by_cases h1 : n = 1
    · subst h1; rfl
    by_cases h2 : n = 2
    · subst h2; rfl
    by_cases h3 : n = 3
    · subst h3; rfl
    by_cases h4 : n = 4
    · subst h4; rfl
    by_cases h5 : n = 5
    · subst h5; rfl
    by_cases h6 : n = 6
    · subst h6; rfl
    by_cases h7 : n = 7
    · subst h7; rfl
    by_cases h14 : n = 14
    · subst h14; rfl
    have hu : unitMap n = "m" := by
      unfold unitMap
      rw [if_neg h0, if_neg h1, if_neg h2, if_neg h3, if_neg h4, if_neg h5, if_neg h6,
          if_neg h7, if_neg h14]
    rw [hu]
    show (1 : ℚ) = amendedFactor n
    unfold amendedFactor
    rw [if_neg h1, if_neg h2, if_neg h4, if_neg h5]
  have hpos : ∀ n : Nat, 0 < amendedFactor n := by
    intro n
    unfold amendedFactor
    split_ifs <;> norm_num
  refine ⟨h (code.getD 0), ?_, rfl⟩
  show 0 < scaleOfUnit (unitMap (code.getD 0))
  rw [h (code.getD 0)]
  exact hpos (code.getD 0)

/-- C5: the code groups a block's member entities under the member's
*layer* name, not under the block's name — the key `DOOR` initialized by
`process_dxf` stays empty and the member line lands under key `L1`,
which is not a block name of the document.  The claim (and the
`self.blocks[block_name] = []` initialization in the code itself)
says members belong under the block name. -/
theorem c5_block_grouped_by_layer :
    (processDxf doorBlockDoc).blocks
      = [("DOOR", []),
         ("L1", [{ type := "LINE", layer := "L1",
                   coordinates := [{ x := 0, y := 0 }, { x := 1, y := 0 }],
                   properties := [], is_block := true }])]
    ∧ "L1" ∉ doorBlockDoc.blocks.map Prod.fst := by
  refine ⟨by decide, by decide⟩

/-- C6 counterexample: a document with one block member on layer
`LBLOCK` and an empty model space yields layer list `[LBLOCK]`, but the
top-level entity list is empty — the returned layer set is *not* the set
of distinct layer values of the entity list. -/
theorem c6_layerset_includes_block_layers_cex :
    (processDxf blockLayerDoc).layers = ["LBLOCK"]
    ∧ (processDxf blockLayerDoc).entities = []
    ∧ "LBLOCK" ∉ (processDxf blockLayerDoc).entities.map Entity.layer := by
  refine ⟨by decide, by decide, by decide⟩

/-- C6 (amended): the returned layer list is duplicate-free and equals,
as a set, the distinct layer values across *all* processed objects —
model-space entities and non-anonymous block members alike; its order
(Python set iteration order) is unspecified and it is not sorted. -/
theorem c6_layers_dedup_cover_all_processed (doc : DxfDoc) :
    (processDxf doc).layers.Nodup
    ∧ ∀ s : String, s ∈ (processDxf doc).layers ↔ s ∈ dxfProcessedLayers doc := by
  have hl : (processDxf doc).layers = insertLayers [] (dxfProcessedLayers doc) :=
    pipelineState_layers doc
  rw [hl]
  refine ⟨nodup_insertLayers _ [] List.nodup_nil, fun s => ?_⟩
  rw [mem_insertLayers]
  simp

/-- C7 counterexample: a raster contour spanning [0,10]x[0,10] yields
bounds (-1,-1)-(11,11): the raster pathway *does* apply the 10%
proportional padding, so bounds do not equal the raw min/max extent. -/
theorem c7_raster_bounds_padded_cex :
    (processImage [triContour] 100 100).bounds
      = { minX := .fin (-1), minY := .fin (-1), maxX := .fin 11, maxY := .fin 11 }
    ∧ rawExtentBounds (processImage [triContour] 100 100).entities
      = { minX := .fin 0, minY := .fin 0, maxX := .fin 10, maxY := .fin 10 }
    ∧ (processImage [triContour] 100 100).bounds
        ≠ rawExtentBounds (processImage [triContour] 100 100).entities := by
  refine ⟨?_, ?_, ?_⟩ <;>
    norm_num [processImage, extractGeometry, imgContourEntity, determineEntityType,
      imgCalculateBounds, imgBuildResult, calcBoundsOn, entityCoords, foldExtent,
      padBounds, escale, esub, eadd, emin, emax, rawExtentBounds, insertLayer,
      imgInitState, triContour]

/-- C7 (amended): when the raster pathway detects any geometry, its
bounds equal the raw min/max extent *plus* the same 10%-of-x-span
padding used by the vector pathway — there is no pathway asymmetry. -/
theorem c7_raster_bounds_equal_padded_extent (contours : List ImgContour) (w h : ℚ)
    (hne : (processImage contours w h).entities ≠ []) :
    (processImage contours w h).bounds
      = paddedOf (rawExtentBounds (processImage contours w h).entities) := by
  have hent : (processImage contours w h).entities
      = (extractGeometry imgInitState contours w h).entities := rfl
  have hb : (processImage contours w h).bounds
      = calcBoundsOn (extractGeometry imgInitState contours w h).entities
          imgInitState.bounds := by
    show (imgCalculateBounds (extractGeometry imgInitState contours w h)).bounds = _
    unfold imgCalculateBounds
    rw [extractGeometry_bounds]
  rw [hent] at hne
  rw [hb, hent]
  unfold calcBoundsOn
  rw [if_neg (by simp [List.isEmpty_iff, hne])]
  rfl

/-- C7 witness: instantiating the padded-extent equation at the
triangular contour. -/
theorem c7_raster_bounds_equal_padded_extent_witness :
    (processImage [triContour] 100 100).entities ≠ []
    ∧ (processImage [triContour] 100 100).bounds
        = paddedOf (rawExtentBounds (processImage [triContour] 100 100).entities) :=
  ⟨by decide, c7_raster_bounds_equal_padded_extent [triContour] 100 100 (by decide)⟩

/-- C8: a well-formed raster image in which every detected contour is
below the noise threshold (in particular a blank image, which yields no
contours at all) produces an empty entity list and the default bounds
(0,0)-(100,100), not an error. -/
theorem c8_blank_image_empty_result (contours : List ImgContour) (w h : ℚ)
    (hall : ∀ c ∈ contours, c.area < 100) :
    (processImage contours w h).entities = []
    ∧ (processImage contours w h).bounds
        = { minX := .fin 0, minY := .fin 0, maxX := .fin 100, maxY := .fin 100 } := by
  unfold processImage
  rw [extractGeometry_skip_all contours imgInitState w h hall]
  exact ⟨rfl, rfl⟩

/-- C8 witness: one sub-threshold contour of area 50. -/
theorem c8_blank_image_empty_result_witness :
    (∀ c ∈ [tinyContour], c.area < 100)
    ∧ ((processImage [tinyContour] 100 100).entities = []
       ∧ (processImage [tinyContour] 100 100).bounds
           = { minX := .fin 0, minY := .fin 0, maxX := .fin 100, maxY := .fin 100 }) :=
  ⟨by norm_num [tinyContour],
   c8_blank_image_empty_result [tinyContour] 100 100 (by norm_num [tinyContour])⟩

/-- C9 counterexample: for a document with layers `A` and `B`, both
`[A, B]` and `[B, A]` are possible values of `list(self.layers)`
(Python fixes a set's contents, not its iteration order, and string
hashing is per-process randomized), and the two resulting Results
differ — byte-identical input does not force identical layer-list
order. -/
theorem c9_layer_order_nondeterminism_cex :
    validListing (pipelineState twoLayerDoc).layers ["A", "B"]
    ∧ validListing (pipelineState twoLayerDoc).layers ["B", "A"]
    ∧ processDxfWith twoLayerDoc ["A", "B"] ≠ processDxfWith twoLayerDoc ["B", "A"] := by
  refine ⟨by decide, by decide, fun hEq => absurd (congrArg Result.layers hEq) (by decide)⟩

/-- C9 (amended): two extractions of byte-identical input agree on
entities, bounds, scale, units, blocks and both counts — the two
Results can differ only in the order of the layer list, and the two
layer lists are permutations of each other. -/
theorem c9_deterministic_up_to_layer_order (doc : DxfDoc) (l1 l2 : List String)
    (h1 : validListing (pipelineState doc).layers l1)
    (h2 : validListing (pipelineState doc).layers l2) :
    processDxfWith doc l1 = { processDxfWith doc l2 with layers := l1 }
    ∧ l1.Perm l2 := by
  refine ⟨rfl, ?_⟩
  refine (List.perm_ext_iff_of_nodup h1.1 h2.1).mpr (fun a => ?_)
  exact ⟨fun ha => h2.2.2 a (h1.2.1 a ha), fun ha => h1.2.2 a (h2.2.1 a ha)⟩

/-- C9 witness: the two listings of `twoLayerDoc`'s layer set. -/
theorem c9_deterministic_up_to_layer_order_witness :
    (validListing (pipelineState twoLayerDoc).layers ["A", "B"]
     ∧ validListing (pipelineState twoLayerDoc).layers ["B", "A"])
    ∧ (processDxfWith twoLayerDoc ["A", "B"]
        = { processDxfWith twoLayerDoc ["B", "A"] with layers := ["A", "B"] }
       ∧ List.Perm ["A", "B"] ["B", "A"]) :=
  ⟨⟨by decide, by decide⟩,
   c9_deterministic_up_to_layer_order twoLayerDoc ["A", "B"] ["B", "A"]
     (by decide) (by decide)⟩

/-- C10: the PDF pathway never recomputes bounds — for every decoded
page, however many lines and contours are detected, the Result's bounds
equal the constructor default (0,0)-(100,100). -/
theorem c10_pdf_bounds_default (page : PdfPage) :
    (processPdf page).bounds
      = { minX := .fin 0, minY := .fin 0, maxX := .fin 100, maxY := .fin 100 } := by
  have h1 : (processPdf page).bounds = (extractPdfGeometry initState page).bounds := rfl
  rw [h1]
  unfold extractPdfGeometry
  rw [pdfRoomFold_bounds, pdfLineFold_bounds]
  rfl
